import Mathlib

/-!
Shallow embedding of `src/main.py` (Audio Generation API): CSV-to-SSML
generation, timestamp parsing, voice selection, locale resolution, and the
upload endpoint's error handling.  Pandas cell values are modelled as either
a string or NaN; Python exceptions are modelled with an explicit error type.
-/

deriving instance DecidableEq for Except

/-- A pandas cell value: either a string or the missing-value marker NaN
(pandas stores missing CSV cells as the float NaN). -/
inductive PyVal where
  | str (s : String)
  | nan
deriving DecidableEq, Repr

/-- Python exceptions that the code under `src/main.py` can raise on the
paths modelled here. -/
inductive PyExc where
  | valueError (msg : String)
  | typeError (msg : String)
  | attributeError (msg : String)
  | indexError (msg : String)
  | otherError (msg : String)
deriving DecidableEq, Repr

/-- One row of the data frame: an association list from column name to cell
value (a pandas row viewed through `row.get`). -/
abbrev Row := List (String × PyVal)

/-- The parsed CSV: column names in order, and the rows in order. -/
structure DataFrame where
  columns : List String
  rows : List Row
deriving DecidableEq, Repr

/-- `row.get(key, default)` on a pandas row. -/
def rowGet (r : Row) (key : String) (dflt : PyVal) : PyVal :=
  match r.lookup key with
  | some v => v
  | none => dflt

/-- ASCII whitespace stripped by Python `str.strip()` (the unicode cases do
not arise in this code's inputs). -/
def pyIsSpace (c : Char) : Bool :=
  c = ' ' || c = '\t' || c = '\n' || c = '\r' || c = '\x0b' || c = '\x0c'

/-- Python `str.strip()`. -/
def pyStrip (s : String) : String :=
  String.mk (((s.data.dropWhile pyIsSpace).reverse.dropWhile pyIsSpace).reverse)

/-- Numeric value of a decimal digit character. -/
def digitVal (c : Char) : Nat := c.toNat - 48

/-- Digits of a Python integer literal after the first digit: plain digits,
with single underscores allowed between digits (as Python `int()` accepts). -/
def pyDigits (acc : Nat) : List Char → Option Nat
  | [] => some acc
  | '_' :: c :: rest => if c.isDigit then pyDigits (acc * 10 + digitVal c) rest else none
  | ['_'] => none
  | c :: rest => if c.isDigit then pyDigits (acc * 10 + digitVal c) rest else none

/-- The digit part of a Python integer literal (must be non-empty and start
with a digit). -/
def pyDigitsStart : List Char → Option Nat
  | [] => none
  | c :: rest => if c.isDigit then pyDigits (digitVal c) rest else none

/-- Python `int(s)` on a string: strips whitespace, allows one optional sign,
then a non-empty digit sequence; `none` models the `ValueError` raised
otherwise. -/
def pyToInt (s : String) : Option Int :=
  match (pyStrip s).data with
  | '+' :: rest => (pyDigitsStart rest).map Int.ofNat
  | '-' :: rest => (pyDigitsStart rest).map (fun n => -(n : Int))
  | rest => (pyDigitsStart rest).map Int.ofNat

/-- Python `str.split(sep)` for a one-character separator, on char lists. -/
def pySplitCh (sep : Char) : List Char → List (List Char)
  | [] => [[]]
  | c :: rest =>
    match pySplitCh sep rest with
    | [] => [[c]]
    | h :: t => if c = sep then [] :: h :: t else (c :: h) :: t

/-- Python `s.split(sep)` returning strings. -/
def pySplitOn (sep : Char) (s : String) : List String :=
  (pySplitCh sep s.data).map String.mk

/-- `convert_timestamp_to_seconds` (main.py lines 76-81):
`minutes, seconds = map(int, timestamp.split(':'))` succeeds exactly when the
split has exactly two parts and both parse as ints (unpacking a wrong-arity
result, or a failing `int()`, both raise `ValueError`, caught and mapped
to 0). -/
def convert_timestamp_to_seconds (timestamp : String) : Int :=
  match pySplitOn ':' timestamp with
  | [m, s] =>
    match pyToInt m, pyToInt s with
    | some minutes, some seconds => minutes * 60 + seconds
    | _, _ => 0
  | _ => 0

/-- Position of the first `']'` in the list, provided no newline occurs
before it (Python `.` in the pattern `\[.*?\]` does not match a newline);
used to locate the minimal match of the non-greedy regex. -/
def findCloseIdx : List Char → Option Nat
  | [] => none
  | ']' :: _ => some 0
  | '\n' :: _ => none
  | _ :: rest => (findCloseIdx rest).map (· + 1)

/-- One left-to-right pass of `re.sub(r'\[.*?\]', '', text)`: at each `[`,
drop through the nearest following `]` on the same line if there is one,
otherwise keep the `[` and move on.  Fuel is the remaining length; each step
consumes at least one character, so `fuel = length` always suffices. -/
def cleanAux : Nat → List Char → List Char
  | _, [] => []
  | 0, cs => cs
  | fuel + 1, '[' :: rest =>
    match findCloseIdx rest with
    | some i => cleanAux fuel (rest.drop (i + 1))
    | none => '[' :: cleanAux fuel rest
  | fuel + 1, c :: rest => c :: cleanAux fuel rest

/-- `clean_text` (main.py lines 72-73): `re.sub(r'\[.*?\]', '', text)`. -/
def clean_text (text : String) : String :=
  String.mk (cleanAux text.data.length text.data)

/-- `clean_text` applied to a pandas cell value: `re.sub` raises `TypeError`
when handed a non-string (a NaN cell). -/
def cleanTextPy : PyVal → Except PyExc String
  | PyVal.str s => Except.ok (clean_text s)
  | PyVal.nan => Except.error (PyExc.typeError "expected string or bytes-like object")

/-- `convert_timestamp_to_seconds` applied to a pandas cell value: calling
`.split` on a NaN (a float) raises `AttributeError`, which the function's
`except ValueError` does not catch. -/
def convertTimestampPy : PyVal → Except PyExc Int
  | PyVal.str s => Except.ok (convert_timestamp_to_seconds s)
  | PyVal.nan => Except.error (PyExc.attributeError "float object has no attribute split")

/-- Python `==` between a cell value and a string literal (NaN compares
unequal to every string). -/
def pyEqStr : PyVal → String → Bool
  | PyVal.str t, s => t == s
  | PyVal.nan, _ => false

/-- The voice chosen for a row (main.py lines 139 and 151):
`speaker = row.get('Speaker', 'spk_0')`;
`voice = male_voice if speaker == 'spk_0' else female_voice`. -/
def rowVoice (r : Row) (male_voice female_voice : String) : String :=
  if pyEqStr (rowGet r "Speaker" (PyVal.str "spk_0")) "spk_0" then male_voice else female_voice

/-- One emitted piece of the SSML body: a timed silence or a voiced text. -/
inductive Segment where
  | brk (delay : Int)
  | voice (name text : String)
deriving DecidableEq, Repr

/-- The exact string the source appends for each emitted segment. -/
def renderSegment : Segment → String
  | Segment.brk d => "<break time=\x27" ++ toString d ++ "s\x27 />\n"
  | Segment.voice name text => "<voice name=\x27" ++ name ++ "\x27>" ++ text ++ "</voice>\n"

/-- The opening `<speak ...>` line of the generated document. -/
def ssmlHeader (xml_lang : String) : String :=
  "<speak version=\x271.0\x27 xmlns=\x27http://www.w3.org/2001/10/synthesis\x27 xml:lang=\x27"
    ++ xml_lang ++ "\x27>\n"

/-- The row loop of `generate_ssml` (main.py lines 136-152), producing the
emitted segments in order; the accumulated `ssml_content` string is the
concatenation of the rendered segments.  `last_timestamp` starts at 0. -/
def ssmlLoop (lang_column male_voice female_voice : String) :
    List Row → Int → Except PyExc (List Segment)
  | [], _ => Except.ok []
  | r :: rs, last_timestamp =>
    match cleanTextPy (rowGet r lang_column (PyVal.str "")) with
    | Except.error e => Except.error e
    | Except.ok transcription =>
      if transcription = "" then
        ssmlLoop lang_column male_voice female_voice rs last_timestamp
      else
        match convertTimestampPy (rowGet r "Time Markers" (PyVal.str "0:00")) with
        | Except.error e => Except.error e
        | Except.ok timestamp_seconds =>
          match ssmlLoop lang_column male_voice female_voice rs timestamp_seconds with
          | Except.error e => Except.error e
          | Except.ok rest =>
            Except.ok ((if max 0 (timestamp_seconds - last_timestamp) > 0
                then [Segment.brk (max 0 (timestamp_seconds - last_timestamp))] else []) ++
              Segment.voice (rowVoice r male_voice female_voice) transcription :: rest)

/-- The document built by `generate_ssml` (main.py lines 130-154) before it
is uploaded: header, the rendered segments, and the closing tag; raises
`ValueError` when the target column is absent. -/
def ssml_content (df : DataFrame) (lang_column male_voice female_voice xml_lang : String) :
    Except PyExc String :=
  if df.columns.contains lang_column then
    match ssmlLoop lang_column male_voice female_voice df.rows 0 with
    | Except.ok segs =>
      Except.ok (ssmlHeader xml_lang ++ String.join (segs.map renderSegment) ++ "</speak>")
    | Except.error e => Except.error e
  else
    Except.error (PyExc.valueError ("Column \x27" ++ lang_column ++ "\x27 not found in the CSV file."))

/-- `generate_ssml` (main.py lines 130-159): build the document, then upload
it to S3 and return the storage path; the uploader is an external
collaborator passed as a function. -/
def generate_ssml (upload_file_to_s3 : String → Except PyExc String) (df : DataFrame)
    (lang_column male_voice female_voice xml_lang : String) : Except PyExc String :=
  match ssml_content df lang_column male_voice female_voice xml_lang with
  | Except.ok content => upload_file_to_s3 content
  | Except.error e => Except.error e

/-- One entry of the Azure voice catalog as the endpoint reads it. -/
structure VoiceEntry where
  Locale : String
  ShortName : String
  Gender : String
deriving DecidableEq, Repr

/-- Python substring test `needle in hay` (on char lists). -/
def isInfixB (needle : List Char) : List Char → Bool
  | [] => needle.isEmpty
  | c :: rest => List.isPrefixOf needle (c :: rest) || isInfixB needle rest

/-- Python `needle in hay` on strings. -/
def strContains (needle hay : String) : Bool :=
  isInfixB needle.data hay.data

/-- Python `s.endswith(suffix)`. -/
def strEndsWith (s suffix : String) : Bool :=
  List.isSuffixOf suffix.data s.data

/-- The locale-to-voices resolution of the endpoint (main.py lines 258-269):
filter the catalog by exact locale equality, take the first male-tagged and
first female-tagged entries (substring test on the gender descriptor), and
report an error message when the locale is unknown or either voice is
missing (Python truthiness: a `None` or an empty short-name both fail the
`if not male_voice or not female_voice` check). -/
def resolveVoices (supported_voices : List VoiceEntry) (source_cleaned : String) :
    Except String (String × String) :=
  let source_voices := supported_voices.filter (fun v => source_cleaned == v.Locale)
  if source_voices.isEmpty then
    Except.error "Invalid locale specified or locale not supported."
  else
    match source_voices.find? (fun v => strContains "Male" v.Gender),
          source_voices.find? (fun v => strContains "Female" v.Gender) with
    | some vm, some vf =>
      if vm.ShortName = "" || vf.ShortName = "" then
        Except.error ("Male or female voice not found for " ++ source_cleaned ++ ".")
      else
        Except.ok (vm.ShortName, vf.ShortName)
    | _, _ => Except.error ("Male or female voice not found for " ++ source_cleaned ++ ".")

/-- `find_transcription_column` (main.py lines 234-238): the first column
whose name contains the locale code and ends with `--Transcription`. -/
def find_transcription_column (df : DataFrame) (locale_code : String) : Option String :=
  df.columns.find? (fun column => strContains locale_code column && strEndsWith column "--Transcription")

/-- `detect_language` (main.py lines 227-231) with the external `langdetect`
call abstracted as an oracle whose `error` is `LangDetectException`. -/
def detect_language (detect : String → Except Unit String) (text : String) : String :=
  match detect text with
  | Except.ok lang => lang
  | Except.error _ => "unknown"

/-- `source_cleaned` (main.py line 244): strip, then delete every backslash,
newline and tab (`replace(x, "")` deletes every occurrence). -/
def pyCleanSource (source : String) : String :=
  String.mk (((pyStrip source).data.filter (fun c => c ≠ '\\')).filter
    (fun c => c ≠ '\n') |>.filter (fun c => c ≠ '\t'))

/-- `locale_code = source_cleaned.split('-')[-1]` (main.py line 275). -/
def localeCode (source_cleaned : String) : String :=
  (pySplitOn '-' source_cleaned).getLastD ""

/-- `df[transcription_column].dropna()` (main.py line 282): the column's
cell values in row order with the NaN entries removed (a row that lacks the
key entirely reads as NaN in pandas). -/
def columnDropna (df : DataFrame) (col : String) : List String :=
  (df.rows.map (fun r => rowGet r col PyVal.nan)).filterMap
    (fun v => match v with | PyVal.str s => some s | PyVal.nan => none)

/-- `df[transcription_column].dropna().iloc[0]` (main.py line 282): the
first non-missing value; positional indexing of an empty series raises
`IndexError`. -/
def firstTranscription (df : DataFrame) (col : String) : Except PyExc String :=
  match columnDropna df col with
  | [] => Except.error (PyExc.indexError "single positional indexer is out-of-bounds")
  | t :: _ => Except.ok t

/-- The JSON body returned by the upload endpoint: either the success object
with its three fields, or the error object. -/
inductive Response where
  | success (message english_audio_link language_audio_link : String)
  | errorResp (msg : String)
deriving DecidableEq, Repr

/-- External collaborators of the endpoint, each returning a value or a
raised exception. -/
structure Env where
  upload_input : Except PyExc Unit
  get_supported_voices : Except PyExc (List VoiceEntry)
  upload_ssml : String → Except PyExc String
  convert_ssml_to_audio : String → Except PyExc String
  detect : String → Except Unit String

/-- Outcome of `pd.read_csv` on the uploaded bytes: a frame, a
`UnicodeDecodeError` (caught by the inner handler), or some other raised
exception. -/
inductive ParseOutcome where
  | ok (df : DataFrame)
  | unicodeError
  | raised (e : PyExc)

/-- The body of the endpoint's `try` block after a successful parse
(main.py lines 252-297): `Except.error` is an exception propagating to the
outer handlers, `Except.ok r` is a normally returned JSON object. -/
def tryFlow (env : Env) (df : DataFrame) (source_cleaned : String) : Except PyExc Response :=
  match env.upload_input with
  | Except.error e => Except.error e
  | Except.ok () =>
  match env.get_supported_voices with
  | Except.error e => Except.error e
  | Except.ok supported_voices =>
  match resolveVoices supported_voices source_cleaned with
  | Except.error msg => Except.ok (Response.errorResp msg)
  | Except.ok (male_voice, female_voice) =>
  match generate_ssml env.upload_ssml df "EN--Transcription" "en-US-GuyNeural" "en-US-JennyNeural" "en-US" with
  | Except.error e => Except.error e
  | Except.ok ssml_file_path_en =>
  match env.convert_ssml_to_audio ssml_file_path_en with
  | Except.error e => Except.error e
  | Except.ok audio_file_en =>
  match find_transcription_column df (localeCode source_cleaned) with
  | none => Except.ok (Response.errorResp ("CSV must contain a column with \x27" ++
      localeCode source_cleaned ++ "--Transcription\x27 for the specified language."))
  | some transcription_column =>
  match firstTranscription df transcription_column with
  | Except.error e => Except.error e
  | Except.ok first_transcription =>
  let detected_language := detect_language env.detect first_transcription
  if localeCode source_cleaned == "IN" && detected_language != "hi" then
    Except.ok (Response.errorResp ("Detected language \x27" ++ detected_language ++
      "\x27 does not match the expected language \x27Hindi\x27 in \x27IN--Transcription\x27."))
  else
  match generate_ssml env.upload_ssml df transcription_column male_voice female_voice source_cleaned with
  | Except.error e => Except.error e
  | Except.ok ssml_file_path_source =>
  match env.convert_ssml_to_audio ssml_file_path_source with
  | Except.error e => Except.error e
  | Except.ok audio_file_source =>
  Except.ok (Response.success "Audio files generated successfully" audio_file_en audio_file_source)

/-- `str(e)` of a modelled exception. -/
def excMessage : PyExc → String
  | PyExc.valueError m => m
  | PyExc.typeError m => m
  | PyExc.attributeError m => m
  | PyExc.indexError m => m
  | PyExc.otherError m => m

/-- The endpoint's exception handlers (main.py lines 299-304): `ValueError`
returns its message verbatim, every other exception gets the generic
prefix. -/
def handleExc : PyExc → Response
  | PyExc.valueError m => Response.errorResp m
  | e => Response.errorResp ("Error processing file. " ++ excMessage e)

/-- `upload_csv` (main.py lines 241-304) with the collaborators abstracted:
clean the locale, handle the decode error, run the try-block body, and
convert any raised exception into the error object.  Total by construction:
no exception escapes the handler. -/
def upload_csv_model (env : Env) (parse : ParseOutcome) (source : String) : Response :=
  let source_cleaned := pyCleanSource source
  match parse with
  | ParseOutcome.unicodeError =>
    Response.errorResp "File encoding is not supported. Please ensure the file is UTF-8 encoded."
  | ParseOutcome.raised e => handleExc e
  | ParseOutcome.ok df =>
    match tryFlow env df source_cleaned with
    | Except.ok resp => resp
    | Except.error e => handleExc e

/-- The data the loop extracts from a non-skipped row: its timestamp in
seconds, the chosen voice, and the cleaned text; `none` for a row the loop
skips (empty cleaned text) or cannot process (a NaN cell). -/
def rowInfo (lang_column male_voice female_voice : String) (r : Row) :
    Option (Int × String × String) :=
  match cleanTextPy (rowGet r lang_column (PyVal.str "")) with
  | Except.error _ => none
  | Except.ok t =>
    if t = "" then none
    else
      match convertTimestampPy (rowGet r "Time Markers" (PyVal.str "0:00")) with
      | Except.error _ => none
      | Except.ok ts => some (ts, rowVoice r male_voice female_voice, t)

/-- Modelled from the spec: `delay = max(0, current − previous)`, the
previous timestamp then updates to the current one regardless of whether a
silence segment was needed. -/
def specDelays : Int → List Int → List Int
  | _, [] => []
  | prev, t :: ts => max 0 (t - prev) :: specDelays t ts

/-- Modelled from the spec: the segment sequence over the non-skipped rows,
in order: a silence segment exactly when the clamped delay is strictly
positive, then the row's voice segment; the previous timestamp always
advances to the row's timestamp. -/
def specDelaySegments : Int → List (Int × String × String) → List Segment
  | _, [] => []
  | prev, (t, v, x) :: rest =>
    (if max 0 (t - prev) > 0 then [Segment.brk (max 0 (t - prev))] else []) ++
      Segment.voice v x :: specDelaySegments t rest

/-- The voice-segment part of a segment, if any. -/
def voiceOf : Segment → Option (String × String)
  | Segment.brk _ => none
  | Segment.voice name text => some (name, text)

/-- The silence-segment delay of a segment, if any. -/
def brkOf : Segment → Option Int
  | Segment.brk d => some d
  | Segment.voice _ _ => none

/-- An environment whose collaborators all succeed: the uploader returns its
content as the path, synthesis succeeds, and detection is the given
oracle. -/
def mkEnv (voices : List VoiceEntry) (d : String → Except Unit String) : Env where
  upload_input := Except.ok ()
  get_supported_voices := Except.ok voices
  upload_ssml := fun content => Except.ok content
  convert_ssml_to_audio := fun p => Except.ok ("audio/" ++ p)
  detect := d

/-- A detection oracle that always reports English. -/
def dEn : String → Except Unit String := fun _ => Except.ok "en"

/-- A transcript row over a text column named `T`. -/
def mkRowT (speaker time text : String) : Row :=
  [("Speaker", PyVal.str speaker), ("Time Markers", PyVal.str time), ("T", PyVal.str text)]

/-- The four-row table of the spec's delay example: timestamps
0:00, 0:05, 0:05, 0:20 with non-empty text in each row. -/
def df4 : DataFrame where
  columns := ["Speaker", "Time Markers", "T"]
  rows := [mkRowT "spk_0" "0:00" "a", mkRowT "spk_0" "0:05" "b",
           mkRowT "spk_0" "0:05" "c", mkRowT "spk_0" "0:20" "d"]

/-- A two-row table whose second row cleans to the empty string. -/
def dfSkip : DataFrame where
  columns := ["Speaker", "Time Markers", "T"]
  rows := [mkRowT "spk_0" "0:01" "hi", mkRowT "spk_1" "0:02" "[x]"]

/-- The spec's example voice catalog for `en-US`. -/
def catalog2 : List VoiceEntry :=
  [{ Locale := "en-US", ShortName := "A", Gender := "Male" },
   { Locale := "en-US", ShortName := "B", Gender := "Female" }]

/-- A catalog with a `Male Child` gender descriptor. -/
def catalogChild : List VoiceEntry :=
  [{ Locale := "xx", ShortName := "C", Gender := "Male Child" },
   { Locale := "xx", ShortName := "D", Gender := "Female" }]

/-- A catalog carrying voices for `hi-IN`. -/
def catalogHI : List VoiceEntry :=
  [{ Locale := "hi-IN", ShortName := "M1", Gender := "Male" },
   { Locale := "hi-IN", ShortName := "F1", Gender := "Female" }]

/-- A catalog carrying voices for `fr-FR`. -/
def catalogFR : List VoiceEntry :=
  [{ Locale := "fr-FR", ShortName := "M2", Gender := "Male" },
   { Locale := "fr-FR", ShortName := "F2", Gender := "Female" }]

/-- The column list of the spec's column-finder example. -/
def dfCols : DataFrame where
  columns := ["EN--Transcription", "IN--Transcription"]
  rows := []

/-- A table with English text and a Hindi column holding a detectable
value. -/
def dfHI : DataFrame where
  columns := ["EN--Transcription", "IN--Transcription"]
  rows := [[("EN--Transcription", PyVal.str "hi there"), ("IN--Transcription", PyVal.str "hello")]]

/-- A table whose `FR--Transcription` column holds only missing values. -/
def dfFRnan : DataFrame where
  columns := ["EN--Transcription", "FR--Transcription"]
  rows := [[("EN--Transcription", PyVal.str "hi there"), ("FR--Transcription", PyVal.nan)]]

/-- The document generated for `dfSkip` over column `T`. -/
def docSkip : String :=
  ssmlHeader "en-US" ++ "<break time=\x271s\x27 />\n" ++ "<voice name=\x27m\x27>hi</voice>\n" ++ "</speak>"

/-- The English document generated for a single-row table whose
`EN--Transcription` cell is `hi there`. -/
def docEN : String :=
  ssmlHeader "en-US" ++ "<voice name=\x27en-US-GuyNeural\x27>hi there</voice>\n" ++ "</speak>"

/-- A table without the `EN--Transcription` column. -/
def dfNoEN : DataFrame where
  columns := ["IN--Transcription"]
  rows := []

/-- A one-row table whose only cell in column `T` is missing. -/
def dfNaN : DataFrame where
  columns := ["T"]
  rows := [[("T", PyVal.nan)]]

theorem ssmlLoop_eq_spec (c mv fv : String) :
    ∀ (rows : List Row) (last : Int) (segs : List Segment),
      ssmlLoop c mv fv rows last = Except.ok segs →
      segs = specDelaySegments last (rows.filterMap (rowInfo c mv fv)) := by
  intro rows
  induction rows with
  | nil =>
    intro last segs h
    simp only [ssmlLoop] at h
    cases h
    simp [specDelaySegments]
  | cons r rs ih =>
    intro last segs h
    simp only [ssmlLoop] at h
    split at h
    · exact Except.noConfusion h
    · next t hc =>
      split at h
      · next ht =>
        have := ih last segs h
        simpa [List.filterMap_cons, rowInfo, hc, ht] using this
      · next ht =>
        split at h
        · exact Except.noConfusion h
        · next ts hts =>
          split at h
          · exact Except.noConfusion h
          · next rest hrec =>
            cases h
            simp [List.filterMap_cons, rowInfo, hc, ht, hts, specDelaySegments,
              ih ts rest hrec]

theorem spec_voices : ∀ (prev : Int) (l : List (Int × String × String)),
    (specDelaySegments prev l).filterMap voiceOf = l.map (fun i => (i.2.1, i.2.2)) := by
  intro prev l
  induction l generalizing prev with
  | nil => simp [specDelaySegments]
  | cons p rest ih =>
    rcases p with ⟨t, v, x⟩
    by_cases hd : max 0 (t - prev) > 0 <;>
      simp [specDelaySegments, hd, voiceOf, List.filterMap_cons, ih]

theorem spec_breaks : ∀ (prev : Int) (l : List (Int × String × String)),
    (specDelaySegments prev l).filterMap brkOf =
      (specDelays prev (l.map (fun i => i.1))).filter (fun d => decide (0 < d)) := by
  intro prev l
  induction l generalizing prev with
  | nil => simp [specDelaySegments, specDelays]
  | cons p rest ih =>
    rcases p with ⟨t, v, x⟩
    by_cases hd : max 0 (t - prev) > 0 <;>
      simp [specDelaySegments, specDelays, hd, brkOf, List.filterMap_cons, ih]

theorem ssmlLoop_ok_rows (c mv fv : String) :
    ∀ (rows : List Row) (last : Int) (segs : List Segment),
      ssmlLoop c mv fv rows last = Except.ok segs →
      ∀ r ∈ rows, ∃ t, cleanTextPy (rowGet r c (PyVal.str "")) = Except.ok t ∧
        (t ≠ "" → ∃ n, convertTimestampPy (rowGet r "Time Markers" (PyVal.str "0:00")) = Except.ok n) := by
  intro rows
  induction rows with
  | nil => intro last segs h r hr; cases hr
  | cons r0 rs ih =>
    intro last segs h r hr
    simp only [ssmlLoop] at h
    split at h
    · exact Except.noConfusion h
    · next t hc =>
      split at h
      · next ht =>
        rcases List.mem_cons.mp hr with rfl | hr
        · exact ⟨t, hc, fun hne => absurd ht hne⟩
        · exact ih last segs h r hr
      · next ht =>
        split at h
        · exact Except.noConfusion h
        · next ts hts =>
          split at h
          · exact Except.noConfusion h
          · next rest hrec =>
            rcases List.mem_cons.mp hr with rfl | hr
            · exact ⟨t, hc, fun _ => ⟨ts, hts⟩⟩
            · exact ih ts rest hrec r hr

/-- C1: for every table, target text column, pair of voice ids and language
tag, the document produced by the generator holds exactly one voice segment
per row whose cleaned text is non-empty, in the original row order; a row
whose cleaned text is empty contributes no segment at all and does not
advance the timestamp state. -/
theorem voice_segments_per_row :
    (∀ (df : DataFrame) (c mv fv lang doc : String),
        ssml_content df c mv fv lang = Except.ok doc →
        ∃ segs, ssmlLoop c mv fv df.rows 0 = Except.ok segs ∧
          doc = ssmlHeader lang ++ String.join (segs.map renderSegment) ++ "</speak>" ∧
          segs.filterMap voiceOf =
            (df.rows.filterMap (rowInfo c mv fv)).map (fun i => (i.2.1, i.2.2)) ∧
          (∀ r ∈ df.rows, rowInfo c mv fv r = none ↔
            cleanTextPy (rowGet r c (PyVal.str "")) = Except.ok "")) ∧
    (∀ (c mv fv : String) (r : Row) (rs : List Row) (last : Int),
        cleanTextPy (rowGet r c (PyVal.str "")) = Except.ok "" →
        ssmlLoop c mv fv (r :: rs) last = ssmlLoop c mv fv rs last) := by
  constructor
  · intro df c mv fv lang doc h
    simp only [ssml_content] at h
    split at h
    · split at h
      · next segs hloop =>
        cases h
        refine ⟨segs, hloop, rfl, ?_, ?_⟩
        · rw [ssmlLoop_eq_spec c mv fv df.rows 0 segs hloop, spec_voices]
        · intro r hr
          constructor
          · intro hnone
            rcases ssmlLoop_ok_rows c mv fv df.rows 0 segs hloop r hr with ⟨t, hc, hts⟩
            by_cases ht : t = ""
            · rw [ht] at hc; exact hc
            · rcases hts ht with ⟨n, hn⟩
              rw [rowInfo, hc] at hnone
              simp [ht, hn] at hnone
          · intro hc
            simp [rowInfo, hc]
      · exact Except.noConfusion h
    · exact Except.noConfusion h
  · intro c mv fv r rs last h
    simp [ssmlLoop, h]

/-- C2: the silence delay before a non-skipped row equals
max(0, current − previous), with the previous timestamp starting at 0 and
updating from every non-skipped row even when the delay is zero; a silence
segment appears exactly when the delay is strictly positive, and the spec's
0:00, 0:05, 0:05, 0:20 example yields delays 0, 5, 0, 15. -/
theorem silence_delay_computation :
    (∀ (c mv fv : String) (rows : List Row) (last : Int) (segs : List Segment),
        ssmlLoop c mv fv rows last = Except.ok segs →
        segs = specDelaySegments last (rows.filterMap (rowInfo c mv fv)) ∧
        segs.filterMap brkOf =
          (specDelays last ((rows.filterMap (rowInfo c mv fv)).map (fun i => i.1))).filter
            (fun d => decide (0 < d))) ∧
    specDelays 0 [convert_timestamp_to_seconds "0:00", convert_timestamp_to_seconds "0:05",
      convert_timestamp_to_seconds "0:05", convert_timestamp_to_seconds "0:20"] = [0, 5, 0, 15] ∧
    ssmlLoop "T" "m" "f" df4.rows 0 = Except.ok
      [Segment.voice "m" "a", Segment.brk 5, Segment.voice "m" "b",
       Segment.voice "m" "c", Segment.brk 15, Segment.voice "m" "d"] := by
  refine ⟨?_, by decide, by decide⟩
  intro c mv fv rows last segs h
  have hs := ssmlLoop_eq_spec c mv fv rows last segs h
  exact ⟨hs, by rw [hs, spec_breaks]⟩

/-- C3: `convert_timestamp_to_seconds` returns minutes*60 + seconds exactly
when the colon-split has two integer-parsable parts, and 0 otherwise,
without raising; in particular "abc:def" yields 0. -/
theorem timestamp_default_to_zero :
    (∀ (s a b : String) (m k : Int),
        pySplitOn ':' s = [a, b] → pyToInt a = some m → pyToInt b = some k →
        convert_timestamp_to_seconds s = m * 60 + k) ∧
    (∀ s : String,
        (¬ ∃ a b m k, pySplitOn ':' s = [a, b] ∧ pyToInt a = some m ∧ pyToInt b = some k) →
        convert_timestamp_to_seconds s = 0) ∧
    convert_timestamp_to_seconds "abc:def" = 0 := by
  refine ⟨?_, ?_, by decide⟩
  · intro s a b m k h1 h2 h3
    simp [convert_timestamp_to_seconds, h1, h2, h3]
  · intro s hne
    rcases hsp : pySplitOn ':' s with _ | ⟨a, _ | ⟨b, _ | _⟩⟩ <;>
      simp only [convert_timestamp_to_seconds, hsp]
    rcases ha : pyToInt a with _ | m <;> rcases hb : pyToInt b with _ | k <;> simp
    exact absurd ⟨a, b, m, k, hsp, ha, hb⟩ hne

/-- C4: the voice segment uses the male voice exactly when the row's speaker
equals the sentinel "spk_0" (the default when the Speaker field is
missing), and the female voice for any other speaker value. -/
theorem speaker_voice_selection :
    (∀ (r : Row) (mv fv : String),
        rowGet r "Speaker" (PyVal.str "spk_0") = PyVal.str "spk_0" → rowVoice r mv fv = mv) ∧
    (∀ (r : Row) (mv fv : String),
        rowGet r "Speaker" (PyVal.str "spk_0") ≠ PyVal.str "spk_0" → rowVoice r mv fv = fv) ∧
    (∀ (r : Row) (mv fv : String), r.lookup "Speaker" = none → rowVoice r mv fv = mv) := by
  refine ⟨?_, ?_, ?_⟩
  · intro r mv fv h
    simp [rowVoice, h, pyEqStr]
  · intro r mv fv h
    rcases hv : rowGet r "Speaker" (PyVal.str "spk_0") with t | _
    · rw [hv] at h
      have ht : t ≠ "spk_0" := fun he => h (by rw [he])
      simp [rowVoice, hv, pyEqStr, ht]
    · simp [rowVoice, hv, pyEqStr]
  · intro r mv fv h
    simp [rowVoice, rowGet, h, pyEqStr]

theorem find?_first {α : Type} (p : α → Bool) :
    ∀ (l : List α) (a : α), l.find? p = some a →
      ∃ pre post, l = pre ++ a :: post ∧ p a = true ∧ ∀ x ∈ pre, p x = false := by
  intro l
  induction l with
  | nil => intro a h; cases h
  | cons b bs ih =>
    intro a h
    by_cases hb : p b
    · rw [List.find?_cons_of_pos _ hb] at h
      cases h
      exact ⟨[], bs, rfl, hb, by simp⟩
    · rw [List.find?_cons_of_neg _ hb] at h
      rcases ih a h with ⟨pre, post, heq, hpa, hpre⟩
      refine ⟨b :: pre, post, by simp [heq], hpa, ?_⟩
      intro x hx
      rcases List.mem_cons.mp hx with rfl | hx
      · exact Bool.not_eq_true _ |>.mp hb
      · exact hpre x hx

/-- C5: locale resolution filters the catalog by exact locale equality,
picks the first male-tagged and first female-tagged entries by substring
match on the gender descriptor, and reports an error payload when the
locale is unknown or either voice is missing; the spec's two-entry en-US
catalog resolves to ("A", "B") and fr-FR is a not-found error. -/
theorem locale_voice_resolution :
    (∀ (voices : List VoiceEntry) (loc : String),
        (∀ v ∈ voices, v.Locale ≠ loc) →
        resolveVoices voices loc = Except.error "Invalid locale specified or locale not supported.") ∧
    (∀ (voices : List VoiceEntry) (loc m f : String),
        resolveVoices voices loc = Except.ok (m, f) →
        ∃ vm vf,
          (voices.filter (fun v => loc == v.Locale)).find? (fun v => strContains "Male" v.Gender) = some vm ∧
          vm.ShortName = m ∧
          (voices.filter (fun v => loc == v.Locale)).find? (fun v => strContains "Female" v.Gender) = some vf ∧
          vf.ShortName = f) ∧
    (∀ (voices : List VoiceEntry) (loc : String),
        voices.filter (fun v => loc == v.Locale) ≠ [] →
        ((voices.filter (fun v => loc == v.Locale)).find? (fun v => strContains "Male" v.Gender) = none ∨
         (voices.filter (fun v => loc == v.Locale)).find? (fun v => strContains "Female" v.Gender) = none) →
        resolveVoices voices loc =
          Except.error ("Male or female voice not found for " ++ loc ++ ".")) ∧
    resolveVoices catalog2 "en-US" = Except.ok ("A", "B") ∧
    resolveVoices catalog2 "fr-FR" = Except.error "Invalid locale specified or locale not supported." ∧
    resolveVoices catalogChild "xx" = Except.ok ("C", "D") := by
  refine ⟨?_, ?_, ?_, by decide, by decide, by decide⟩
  · intro voices loc h
    have hf : voices.filter (fun v => loc == v.Locale) = [] := by
      rw [List.filter_eq_nil_iff]
      intro v hv
      simp [Ne.symm (h v hv)]
    simp [resolveVoices, hf]
  · intro voices loc m f h
    simp only [resolveVoices] at h
    split at h
    · exact Except.noConfusion h
    · split at h
      · next vm vf hm hf2 =>
        split at h
        · exact Except.noConfusion h
        · cases h
          exact ⟨vm, vf, hm, rfl, hf2, rfl⟩
      · exact Except.noConfusion h
  · intro voices loc hne hor
    simp only [resolveVoices]
    split
    · next hemp => exact absurd (List.isEmpty_iff.mp hemp) hne
    · split
      · next vm vf hm hf2 =>
        rcases hor with h | h
        · rw [hm] at h; exact Option.noConfusion h
        · rw [hf2] at h; exact Option.noConfusion h
      · rfl

/-- C6: the column finder returns the first column, in column order, whose
name contains the final hyphen-delimited segment of the locale and ends
with "--Transcription", or a not-found signal which the endpoint converts
into an error response; the spec's two-column example behaves as stated. -/
theorem transcription_column_finder :
    (∀ (df : DataFrame) (lc : String),
        find_transcription_column df lc = none ↔
          ∀ col ∈ df.columns, (strContains lc col && strEndsWith col "--Transcription") = false) ∧
    (∀ (df : DataFrame) (lc col : String),
        find_transcription_column df lc = some col →
        ∃ pre post, df.columns = pre ++ col :: post ∧
          strContains lc col = true ∧ strEndsWith col "--Transcription" = true ∧
          ∀ c ∈ pre, (strContains lc c && strEndsWith c "--Transcription") = false) ∧
    (∀ (voices : List VoiceEntry) (d : String → Except Unit String) (df : DataFrame)
        (s m f doc : String),
        resolveVoices voices s = Except.ok (m, f) →
        ssml_content df "EN--Transcription" "en-US-GuyNeural" "en-US-JennyNeural" "en-US" =
          Except.ok doc →
        find_transcription_column df (localeCode s) = none →
        tryFlow (mkEnv voices d) df s = Except.ok (Response.errorResp
          ("CSV must contain a column with \x27" ++ localeCode s ++
            "--Transcription\x27 for the specified language."))) ∧
    localeCode "hi-IN" = "IN" ∧ localeCode "xx-ZZ" = "ZZ" ∧
    find_transcription_column dfCols "IN" = some "IN--Transcription" ∧
    find_transcription_column dfCols "ZZ" = none := by
  refine ⟨?_, ?_, ?_, by decide, by decide, by decide, by decide⟩
  · intro df lc
    simp only [find_transcription_column, List.find?_eq_none]
    constructor
    · intro h col hc
      exact Bool.not_eq_true _ |>.mp (h col hc)
    · intro h col hc
      simp [h col hc]
  · intro df lc col h
    rcases find?_first _ df.columns col h with ⟨pre, post, heq, hp, hpre⟩
    rcases (Bool.and_eq_true _ _).mp hp with ⟨h1, h2⟩
    exact ⟨pre, post, heq, h1, h2, hpre⟩
  · intro voices d df s m f doc h1 h2 h3
    simp [tryFlow, mkEnv, generate_ssml, h1, h2, h3]

theorem handleExc_errorResp (e : PyExc) : ∃ m, handleExc e = Response.errorResp m := by
  cases e <;> exact ⟨_, rfl⟩

theorem tryFlow_shape (env : Env) (df : DataFrame) (s : String) (resp : Response)
    (h : tryFlow env df s = Except.ok resp) :
    (∃ m, resp = Response.errorResp m) ∨
    (∃ a b, resp = Response.success "Audio files generated successfully" a b) := by
  simp only [tryFlow] at h
  repeat' split at h
  all_goals first
    | exact Except.noConfusion h
    | (cases h; exact Or.inl ⟨_, rfl⟩)
    | (cases h; exact Or.inr ⟨_, _, rfl⟩)

/-- C7: the language-mismatch gate fires exactly for sub-locale code "IN"
when the detected language of the first non-empty transcription is not
"hi"; any other code ignores the detection result entirely, and language
detection maps a detector failure to the sentinel "unknown" instead of
propagating. -/
theorem hindi_language_gate :
    (∀ (d : String → Except Unit String) (s : String),
        d s = Except.error () → detect_language d s = "unknown") ∧
    (∀ (d : String → Except Unit String) (s l : String),
        d s = Except.ok l → detect_language d s = l) ∧
    (∀ (voices : List VoiceEntry) (d : String → Except Unit String) (df : DataFrame)
        (source m f doc col t : String) (rest : List String),
        resolveVoices voices (pyCleanSource source) = Except.ok (m, f) →
        ssml_content df "EN--Transcription" "en-US-GuyNeural" "en-US-JennyNeural" "en-US" =
          Except.ok doc →
        find_transcription_column df (localeCode (pyCleanSource source)) = some col →
        columnDropna df col = t :: rest →
        localeCode (pyCleanSource source) = "IN" →
        detect_language d t ≠ "hi" →
        upload_csv_model (mkEnv voices d) (ParseOutcome.ok df) source =
          Response.errorResp ("Detected language \x27" ++ detect_language d t ++
            "\x27 does not match the expected language \x27Hindi\x27 in \x27IN--Transcription\x27.")) ∧
    (∀ (voices : List VoiceEntry) (d1 d2 : String → Except Unit String) (df : DataFrame)
        (s : String),
        localeCode s ≠ "IN" →
        tryFlow (mkEnv voices d1) df s = tryFlow (mkEnv voices d2) df s) := by
  refine ⟨?_, ?_, ?_, ?_⟩
  · intro d s h; simp [detect_language, h]
  · intro d s l h; simp [detect_language, h]
  · intro voices d df source m f doc col t rest h1 h2 h3 h4 h5 h6
    rw [h5] at h3
    simp [upload_csv_model, tryFlow, mkEnv, generate_ssml, h1, h2, h5, h3,
      firstTranscription, h4, h6]
  · intro voices d1 d2 df s h
    have hb : (localeCode s == "IN") = false := by
      simp [h]
    simp [tryFlow, mkEnv, hb, Bool.false_and]

/-- C8: every failure handled inside the upload endpoint is converted into
an error object, the missing-column validation error included, and success
returns exactly the fixed message with the two audio links; the handler is
a total function, so no exception escapes. -/
theorem endpoint_error_object :
    (∀ (env : Env) (parse : ParseOutcome) (source : String),
        (∃ msg, upload_csv_model env parse source = Response.errorResp msg) ∨
        (∃ a b, upload_csv_model env parse source =
          Response.success "Audio files generated successfully" a b)) ∧
    (∀ (env : Env) (df : DataFrame) (source : String) (voices : List VoiceEntry) (m f : String),
        env.upload_input = Except.ok () →
        env.get_supported_voices = Except.ok voices →
        resolveVoices voices (pyCleanSource source) = Except.ok (m, f) →
        df.columns.contains "EN--Transcription" = false →
        upload_csv_model env (ParseOutcome.ok df) source =
          Response.errorResp "Column \x27EN--Transcription\x27 not found in the CSV file.") := by
  constructor
  · intro env parse source
    cases parse with
    | unicodeError => exact Or.inl ⟨_, rfl⟩
    | raised e =>
      rcases handleExc_errorResp e with ⟨msg, hm⟩
      exact Or.inl ⟨msg, by simpa [upload_csv_model] using hm⟩
    | ok df =>
      rcases htf : tryFlow env df (pyCleanSource source) with e | resp
      · rcases handleExc_errorResp e with ⟨msg, hm⟩
        refine Or.inl ⟨msg, ?_⟩
        simp [upload_csv_model, htf, hm]
      · have hshape := tryFlow_shape env df (pyCleanSource source) resp htf
        have hval : upload_csv_model env (ParseOutcome.ok df) source = resp := by
          simp [upload_csv_model, htf]
        rcases hshape with ⟨msg, hmsg⟩ | ⟨a, b, hab⟩
        · exact Or.inl ⟨msg, by rw [hval, hmsg]⟩
        · exact Or.inr ⟨a, b, by rw [hval, hab]⟩
  · intro env df source voices m f h1 h2 h3 h4
    have h4m : "EN--Transcription" ∉ df.columns := by simpa using h4
    simp [upload_csv_model, tryFlow, h1, h2, h3, generate_ssml, ssml_content, h4m, handleExc]

/-- C9: a missing (NaN) cell in the target text column makes the generator
raise a TypeError from the regex cleaner, which the endpoint turns into the
generic error payload; the row is not treated as empty text. -/
theorem nan_cell_raises_type_error :
    (∀ (c mv fv : String) (r : Row) (rs : List Row) (last : Int),
        rowGet r c (PyVal.str "") = PyVal.nan →
        ssmlLoop c mv fv (r :: rs) last =
          Except.error (PyExc.typeError "expected string or bytes-like object")) ∧
    (∀ (df : DataFrame) (c mv fv lang : String) (r : Row) (rs : List Row),
        df.columns.contains c = true →
        df.rows = r :: rs →
        rowGet r c (PyVal.str "") = PyVal.nan →
        ssml_content df c mv fv lang =
          Except.error (PyExc.typeError "expected string or bytes-like object")) ∧
    (∀ m : String, handleExc (PyExc.typeError m) =
        Response.errorResp ("Error processing file. " ++ m)) := by
  refine ⟨?_, ?_, fun m => rfl⟩
  · intro c mv fv r rs last h
    simp [ssmlLoop, h, cleanTextPy]
  · intro df c mv fv lang r rs h1 h2 h3
    have h1m : c ∈ df.columns := by simpa using h1
    simp [ssml_content, h1m, h2, ssmlLoop, h3, cleanTextPy]

/-- C10: the first non-missing value of the matched transcription column is
fetched for every locale, so a column holding only missing values fails the
whole request with the generic error even when the locale is not subject to
the Hindi gate. -/
theorem empty_transcription_column_error :
    (∀ (df : DataFrame) (col : String),
        columnDropna df col = [] →
        firstTranscription df col =
          Except.error (PyExc.indexError "single positional indexer is out-of-bounds")) ∧
    (∀ (df : DataFrame) (col t : String) (rest : List String),
        columnDropna df col = t :: rest → firstTranscription df col = Except.ok t) ∧
    (∀ (voices : List VoiceEntry) (d : String → Except Unit String) (df : DataFrame)
        (source m f doc col : String),
        resolveVoices voices (pyCleanSource source) = Except.ok (m, f) →
        ssml_content df "EN--Transcription" "en-US-GuyNeural" "en-US-JennyNeural" "en-US" =
          Except.ok doc →
        find_transcription_column df (localeCode (pyCleanSource source)) = some col →
        columnDropna df col = [] →
        upload_csv_model (mkEnv voices d) (ParseOutcome.ok df) source =
          Response.errorResp "Error processing file. single positional indexer is out-of-bounds") := by
  refine ⟨?_, ?_, ?_⟩
  · intro df col h; simp [firstTranscription, h]
  · intro df col t rest h; simp [firstTranscription, h]
  · intro voices d df source m f doc col h1 h2 h3 h4
    simp [upload_csv_model, tryFlow, mkEnv, generate_ssml, h1, h2, h3,
      firstTranscription, h4, handleExc, excMessage]

theorem voice_segments_per_row_wit :
    ∃ segs, ssmlLoop "T" "m" "f" dfSkip.rows 0 = Except.ok segs ∧
      docSkip = ssmlHeader "en-US" ++ String.join (segs.map renderSegment) ++ "</speak>" ∧
      segs.filterMap voiceOf =
        (dfSkip.rows.filterMap (rowInfo "T" "m" "f")).map (fun i => (i.2.1, i.2.2)) ∧
      (∀ r ∈ dfSkip.rows, rowInfo "T" "m" "f" r = none ↔
        cleanTextPy (rowGet r "T" (PyVal.str "")) = Except.ok "") :=
  voice_segments_per_row.1 dfSkip "T" "m" "f" "en-US" docSkip (by decide)

theorem silence_delay_computation_wit :
    ([Segment.voice "m" "a", Segment.brk 5, Segment.voice "m" "b",
      Segment.voice "m" "c", Segment.brk 15, Segment.voice "m" "d"] : List Segment) =
        specDelaySegments 0 (df4.rows.filterMap (rowInfo "T" "m" "f")) ∧
    ([Segment.voice "m" "a", Segment.brk 5, Segment.voice "m" "b",
      Segment.voice "m" "c", Segment.brk 15, Segment.voice "m" "d"] : List Segment).filterMap brkOf =
        (specDelays 0 ((df4.rows.filterMap (rowInfo "T" "m" "f")).map (fun i => i.1))).filter
          (fun d => decide (0 < d)) :=
  silence_delay_computation.1 "T" "m" "f" df4.rows 0
    [Segment.voice "m" "a", Segment.brk 5, Segment.voice "m" "b",
     Segment.voice "m" "c", Segment.brk 15, Segment.voice "m" "d"] (by decide)

theorem timestamp_default_to_zero_wit :
    convert_timestamp_to_seconds "1:05" = 1 * 60 + 5 :=
  timestamp_default_to_zero.1 "1:05" "1" "05" 1 5 (by decide) (by decide) (by decide)

theorem speaker_voice_selection_wit :
    rowVoice (mkRowT "spk_0" "0:00" "x") "M" "F" = "M" ∧
    rowVoice (mkRowT "spk_1" "0:00" "x") "M" "F" = "F" ∧
    rowVoice [] "M" "F" = "M" :=
  ⟨speaker_voice_selection.1 (mkRowT "spk_0" "0:00" "x") "M" "F" (by decide),
   speaker_voice_selection.2.1 (mkRowT "spk_1" "0:00" "x") "M" "F" (by decide),
   speaker_voice_selection.2.2 [] "M" "F" rfl⟩

theorem locale_voice_resolution_wit :
    resolveVoices catalog2 "fr-FR" =
      Except.error "Invalid locale specified or locale not supported." :=
  locale_voice_resolution.1 catalog2 "fr-FR" (by decide)

theorem transcription_column_finder_wit :
    ∃ pre post, dfCols.columns = pre ++ "IN--Transcription" :: post ∧
      strContains "IN" "IN--Transcription" = true ∧
      strEndsWith "IN--Transcription" "--Transcription" = true ∧
      ∀ c ∈ pre, (strContains "IN" c && strEndsWith c "--Transcription") = false :=
  transcription_column_finder.2.1 dfCols "IN" "IN--Transcription" (by decide)

theorem hindi_language_gate_wit :
    upload_csv_model (mkEnv catalogHI dEn) (ParseOutcome.ok dfHI) "hi-IN" =
      Response.errorResp ("Detected language \x27" ++ detect_language dEn "hello" ++
        "\x27 does not match the expected language \x27Hindi\x27 in \x27IN--Transcription\x27.") :=
  hindi_language_gate.2.2.1 catalogHI dEn dfHI "hi-IN" "M1" "F1" docEN "IN--Transcription"
    "hello" [] (by decide) (by decide) (by decide) (by decide) (by decide) (by decide)

theorem endpoint_error_object_wit :
    upload_csv_model (mkEnv catalogHI dEn) (ParseOutcome.ok dfNoEN) "hi-IN" =
      Response.errorResp "Column \x27EN--Transcription\x27 not found in the CSV file." :=
  endpoint_error_object.2 (mkEnv catalogHI dEn) dfNoEN "hi-IN" catalogHI "M1" "F1"
    rfl rfl (by decide) (by decide)

theorem nan_cell_raises_type_error_wit :
    ssml_content dfNaN "T" "m" "f" "en" =
      Except.error (PyExc.typeError "expected string or bytes-like object") :=
  nan_cell_raises_type_error.2.1 dfNaN "T" "m" "f" "en" [("T", PyVal.nan)] []
    (by decide) rfl (by decide)

theorem empty_transcription_column_error_wit :
    upload_csv_model (mkEnv catalogFR dEn) (ParseOutcome.ok dfFRnan) "fr-FR" =
      Response.errorResp "Error processing file. single positional indexer is out-of-bounds" :=
  empty_transcription_column_error.2.2 catalogFR dEn dfFRnan "fr-FR" "M2" "F2" docEN
    "FR--Transcription" (by decide) (by decide) (by decide) (by decide)
